import Mathlib

/-!
Verification development for the LiteVSenvLauncher repository
(`src/LiteVSenvLauncher.py`).  The definitions below are a shallow
embedding of the program's core: the launch-option configuration store,
the interactive option-merge loop, the launch-command construction, the
archive importer, the environment registry listing, and the fixed helper
subcommands.  Line numbers in the doc comments refer to
`src/LiteVSenvLauncher.py`.
-/

namespace LiteVSenv

/-- A Python value as it occurs in the `opts` / `last` dictionaries of
`open_vscode`: either a JSON/Python boolean or a string.  These are the
only value shapes the program reads from `last_options.json` or stores
into it. -/
inductive PyVal where
  | pbool (b : Bool)
  | pstr (s : String)
deriving DecidableEq

/-- Python truthiness (`if val:`) restricted to the value shapes above:
a boolean is its own truth value, a string is truthy iff non-empty. -/
def truthy : PyVal → Bool
  | PyVal.pbool b => b
  | PyVal.pstr s => s != ""

/-- Python `==` between one of our values and a string literal.  In
Python, `True == "y"` is `False`: a boolean never equals a string. -/
def eqStr : PyVal → String → Bool
  | PyVal.pbool _, _ => false
  | PyVal.pstr s, t => s == t

/-- Python `isinstance(v, bool)`. -/
def isBool : PyVal → Bool
  | PyVal.pbool _ => true
  | PyVal.pstr _ => false

/-- Lines 169-171: `val = safe_input(...).strip(); if not val: val = default`.
The `input` argument is the user's already-stripped text; empty input
falls back to the per-option default. -/
def mergeVal (input : String) (dflt : PyVal) : PyVal :=
  if input == "" then dflt else PyVal.pstr input

/-- Python `s.split("/")[0]`: the characters of `s` before its first
slash (the whole of `s` when it has no slash). -/
def rootSegment (s : String) : String :=
  String.mk (s.data.takeWhile (fun c => c != '/'))

/-- Python `s.startswith(p)`, computed on the character lists. -/
def strStartsWith (s p : String) : Bool :=
  p.data.isPrefixOf s.data

/-- Python `s[n:]` in character counts. -/
def strDrop (s : String) (n : Nat) : String :=
  String.mk (s.data.drop n)

/-- Code-point comparison of two character lists: the lexicographic
order Python's `sorted` uses on strings. -/
def charListLe : List Char → List Char → Bool
  | [], _ => true
  | _ :: _, [] => false
  | a :: as, b :: bs =>
    if a.toNat < b.toNat then true
    else if b.toNat < a.toNat then false
    else charListLe as bs

/-- Python `a <= b` on strings: code-point lexicographic order. -/
def strLe (a b : String) : Bool :=
  charListLe a.data b.data

/-- State of the persisted `last_options.json` file.  `present (some m)`
is an existing file whose content `json.loads` parses to the mapping `m`;
`present none` is an existing file whose content `json.loads` rejects. -/
inductive FileState where
  | absent
  | present (parsed : Option (List (String × PyVal)))

/-- The error raised by `json.loads` on unparsable content
(`json.JSONDecodeError`). -/
inductive LoadErr where
  | jsonDecodeError
deriving DecidableEq

/-- Lines 156-159 of `open_vscode`: `last = {}`; if the options file
exists, `last = json.loads(cfg_file.read_text(...))`.  There is no
exception handler around `json.loads`, so unparsable content raises. -/
def loadLastOptions : FileState → Except LoadErr (List (String × PyVal))
  | FileState.absent => Except.ok []
  | FileState.present (some m) => Except.ok m
  | FileState.present none => Except.error LoadErr.jsonDecodeError

/-- Lines 162-168: the fixed option list of the prompt loop, pairing each
option key with its default `last.get(k, hardDefault)`. -/
def optionSpecs (lastOpts : List (String × PyVal)) : List (String × PyVal) :=
  [ ("--host", (lastOpts.lookup "--host").getD (PyVal.pbool false)),
    ("--mac", (lastOpts.lookup "--mac").getD (PyVal.pbool false)),
    ("--proxy", (lastOpts.lookup "--proxy").getD (PyVal.pstr "")),
    ("--sandbox", (lastOpts.lookup "--sandbox").getD (PyVal.pstr "none")),
    ("--augment", (lastOpts.lookup "--augment").getD (PyVal.pbool false)) ]

/-- One iteration of the prompt loop, lines 169-179: merge the user input
with the default, then either record the value under the key or skip the
key.  `--sandbox` is recorded iff `val != "none"`; `--proxy` iff `val`
is truthy; every other key always gets the boolean
`val == "y" or (isinstance(default, bool) and val == "")`. -/
def promptStep (k : String) (dflt : PyVal) (input : String) : Option PyVal :=
  let val := mergeVal input dflt
  if k == "--sandbox" then
    if eqStr val "none" then none else some val
  else if k == "--proxy" then
    if truthy val then some val else none
  else
    some (PyVal.pbool (eqStr val "y" || (isBool dflt && eqStr val "")))

/-- The whole prompt loop, lines 162-179: the `opts` dictionary that is
then persisted (line 181) and turned into the launch command
(lines 182-187).  `inputs` maps each option key to the user's stripped
input at that prompt. -/
def promptOpts (lastOpts : List (String × PyVal)) (inputs : String → String) :
    List (String × PyVal) :=
  (optionSpecs lastOpts).filterMap
    (fun kd => (promptStep kd.1 kd.2 (inputs kd.1)).map (fun v => (kd.1, v)))

/-- Abbreviation for `last.get(k, hard)`: the persisted value for `k`,
or the hard default. -/
def optDefault (lastOpts : List (String × PyVal)) (k : String) (hard : PyVal) : PyVal :=
  (lastOpts.lookup k).getD hard

/-- Abbreviation for the boolean the loop stores for a non-proxy,
non-sandbox option: `val == "y" or (isinstance(default, bool) and val == "")`. -/
def boolChoice (i : String) (d : PyVal) : Bool :=
  eqStr (mergeVal i d) "y" || (isBool d && eqStr (mergeVal i d) "")

/-- Lines 183-187: the flag arguments appended to the launch command.
`if v is True: cmd.append(k)`; `elif v: cmd.extend([k, v])`; falsy values
contribute nothing. -/
def cmdArgs : List (String × PyVal) → List String
  | [] => []
  | (k, PyVal.pbool true) :: rest => k :: cmdArgs rest
  | (_, PyVal.pbool false) :: rest => cmdArgs rest
  | (k, PyVal.pstr s) :: rest =>
    if s != "" then k :: s :: cmdArgs rest else cmdArgs rest

/-- Line 182 plus lines 183-187: `cmd = ["vsenv", "start", env]` extended
with the flag arguments of the `opts` dictionary. -/
def buildCmd (env : String) (opts : List (String × PyVal)) : List String :=
  "vsenv" :: "start" :: env :: cmdArgs opts

/-- The closed set of sandbox modes named at line 166 of the prompt text:
`none / sandbox / appcontainer / wsb`, with `none` the disabled
sentinel. -/
inductive SandboxMode where
  | none
  | sandbox
  | appcontainer
  | wsb
deriving DecidableEq

/-- The string the user types (and the program compares against) for each
sandbox mode. -/
def SandboxMode.toStr : SandboxMode → String
  | SandboxMode.none => "none"
  | SandboxMode.sandbox => "sandbox"
  | SandboxMode.appcontainer => "appcontainer"
  | SandboxMode.wsb => "wsb"

/-- The abstract launch-options mapping of the spec's data model: three
booleans (default `false`), a proxy string (default empty) and a sandbox
mode (default `none`). -/
structure LaunchOptions where
  randomizeHost : Bool
  randomizeMac : Bool
  proxy : String
  sandboxMode : SandboxMode
  augmentSupport : Bool
deriving DecidableEq

/-- The `opts` dictionary the prompt loop (lines 162-179) produces when
the merged per-option values are the ones in `o`: boolean keys are always
present, `--proxy` only when non-empty, `--sandbox` only when the mode is
not `none` (insertion order `--host`, `--mac`, `--proxy`, `--sandbox`,
`--augment`). -/
def optsDict (o : LaunchOptions) : List (String × PyVal) :=
  [("--host", PyVal.pbool o.randomizeHost), ("--mac", PyVal.pbool o.randomizeMac)]
    ++ (if o.proxy = "" then [] else [("--proxy", PyVal.pstr o.proxy)])
    ++ (if o.sandboxMode = SandboxMode.none then []
        else [("--sandbox", PyVal.pstr o.sandboxMode.toStr)])
    ++ [("--augment", PyVal.pbool o.augmentSupport)]

/-- The spec's `buildLaunchCommand`: lines 162-187 seen as a function of
the environment name and the abstract option values. -/
def buildLaunchCommand (env : String) (o : LaunchOptions) : List String :=
  buildCmd env (optsDict o)

/-- The user inputs that make the prompt loop choose exactly the values
of `o`: `y` / empty for the booleans, the proxy string, the sandbox mode
name. -/
def inputsFor (o : LaunchOptions) : String → String :=
  fun k =>
    if k == "--host" then (if o.randomizeHost then "y" else "n")
    else if k == "--mac" then (if o.randomizeMac then "y" else "n")
    else if k == "--proxy" then o.proxy
    else if k == "--sandbox" then o.sandboxMode.toStr
    else if o.augmentSupport then "y" else "n"

/-- Outcome of the `subprocess.run(cmd, check=True)` call at line 191. -/
inductive HelperOutcome where
  | exitZero
  | exitNonZero
  | execNotFound
deriving DecidableEq

/-- Observable events of the launch tail of `open_vscode`
(lines 180-196): the configuration write at line 181, the helper
invocation at line 191, and the error message printed when
`CalledProcessError` is caught at line 193. -/
inductive Event where
  | writeOptions (opts : List (String × PyVal))
  | runHelper (cmd : List String)
  | showError
deriving DecidableEq

/-- The event trace of lines 180-196 for a chosen environment and `opts`
dictionary: the options are written, then the helper runs; a non-zero
exit is caught and reported, `FileNotFoundError` (helper missing)
propagates past the local handler to the menu loop.  In every case both
events have already happened. -/
def openVscodeEvents (env : String) (opts : List (String × PyVal))
    (outcome : HelperOutcome) : List Event :=
  Event.writeOptions opts :: Event.runHelper (buildCmd env opts) ::
    (match outcome with
      | HelperOutcome.exitZero => []
      | HelperOutcome.exitNonZero => [Event.showError]
      | HelperOutcome.execNotFound => [])

/-- The content of `last_options.json` after a trace of events, starting
from `p0`: each `writeOptions` overwrites the whole file. -/
def persistedAfter : List Event → Option (List (String × PyVal)) →
    Option (List (String × PyVal))
  | [], p => p
  | Event.writeOptions o :: rest, _ => persistedAfter rest (some o)
  | Event.runHelper _ :: rest, p => persistedAfter rest p
  | Event.showError :: rest, p => persistedAfter rest p

/-- Failures of the extraction block of `create_vscode`, lines 117-126.
`emptyArchive` models the `IndexError` raised by `members[0]` when the
archive's name list is empty (line 119).  `renameIntoSelf` models the
`OSError` raised by `os.rename` when the flat-layout branch executes
`target.rename(target / "vscode")`, i.e. tries to move the destination
directory into its own subtree — an operation the operating system
always rejects. -/
inductive ImportErr where
  | emptyArchive
  | renameIntoSelf
deriving DecidableEq

/-- Lines 117-126 of `create_vscode` (the spec's `importArchive`): take
the archive member names, read the root segment of the first member,
decide nesting (`all(m.startswith(root + "/"))`), extract everything
under the target, then rename `target/root` (nested) or `target` itself
(flat) to `target/"vscode"` unless it already is that path.  The result
is the list of extracted paths relative to the target after the rename.
The flat branch, and a nested branch with an empty root segment (where
`target / root` is `target` itself), rename the target into its own
subtree and therefore fail. -/
def importArchive (members : List String) : Except ImportErr (List String) :=
  match members with
  | [] => Except.error ImportErr.emptyArchive
  | m0 :: _ =>
    let root := rootSegment m0
    let hasNesting := members.all (fun m => strStartsWith m (root ++ "/"))
    if hasNesting then
      if root == "" then Except.error ImportErr.renameIntoSelf
      else if root == "vscode" then Except.ok members
      else Except.ok (members.map (fun m => "vscode" ++ strDrop m root.length))
    else Except.error ImportErr.renameIntoSelf

/-- Failure classes of `create_vscode` in the order the code checks them:
missing archive file (line 100), empty / whitespace name (the reprompt
loop of lines 104-108, modelled as a rejection), existing target
directory (lines 109-113), and a failure of the extraction block
(caught at line 129). -/
inductive CreateErr where
  | notFound
  | validation
  | conflict
  | importFailed (e : ImportErr)
deriving DecidableEq

/-- The registry as the list of existing environment directories: each
entry pairs an environment name with the relative paths stored under
`<root>/<name>/`. -/
def Registry := List (String × List String)

/-- `create_vscode`, lines 84-132, as a function of the archive file's
existence, its member list, the current registry and the chosen name.
Returns the failure (if any) together with the registry afterwards.  The
checks happen in source order: archive existence, name validity, name
conflict, then extraction.  On `renameIntoSelf` the extracted-but-
unrenamed members are left in place (no rollback, line 129 only logs);
on `emptyArchive` nothing was extracted, so nothing is left behind. -/
def createEnvironment (zipExists : Bool) (members : List String)
    (existing : List (String × List String)) (name : String) :
    Option CreateErr × List (String × List String) :=
  if !zipExists then (some CreateErr.notFound, existing)
  else if name == "" || name.data.any (fun c => c.isWhitespace) then
    (some CreateErr.validation, existing)
  else if (existing.lookup name).isSome then (some CreateErr.conflict, existing)
  else
    match importArchive members with
    | Except.ok paths => (none, (name, paths) :: existing)
    | Except.error ImportErr.emptyArchive =>
      (some (CreateErr.importFailed ImportErr.emptyArchive), existing)
    | Except.error ImportErr.renameIntoSelf =>
      (some (CreateErr.importFailed ImportErr.renameIntoSelf),
        (name, members) :: existing)

/-- A filesystem entry below the registry root as `rglob` sees it: its
relative path (a non-empty list of segments for anything strictly below
the root) and whether it is a directory. -/
structure FsEntry where
  path : List String
  isDir : Bool
deriving DecidableEq

/-- `list_envs`, lines 71-80: empty when the root does not exist,
otherwise `sorted({d.relative_to(root).parts[0] for d in root.rglob("vscode")
if d.is_dir()})` — the first segment of every directory named `vscode`
found at any depth, deduplicated and sorted. -/
def list_envs (rootExists : Bool) (entries : List FsEntry) : List String :=
  if !rootExists then []
  else
    List.insertionSort (fun a b => strLe a b = true)
      (((entries.filter
          (fun e => e.isDir && e.path.getLast? == some "vscode")).filterMap
        (fun e => e.path.head?)).dedup)

/-- The listing as the claim words it: the first path segments of the
directories that contain the install-marker subdirectory (so the marker's
parent must itself be a directory strictly below the root), deduplicated
and sorted.  This definition follows the claim's words, for comparison
with `list_envs`, which follows the code. -/
def claimEnvNames (rootExists : Bool) (entries : List FsEntry) : List String :=
  if !rootExists then []
  else
    List.insertionSort (fun a b => strLe a b = true)
      (((entries.filter
          (fun e => e.isDir &&
            entries.any (fun c => c.isDir && c.path == e.path ++ ["vscode"]))).filterMap
        (fun e => e.path.head?)).dedup)

/-- `_simple_cmd`, line 235: the argument sequence `["vsenv", action]`
passed to `subprocess.run`. -/
def simpleCmdArgs (action : String) : List String :=
  ["vsenv", action]

/-- `reset_vscode`, lines 252-253: the reset menu action runs
`_simple_cmd("rest", ...)`. -/
def resetAction : List String :=
  simpleCmdArgs "rest"

/-! ## Helper lemmas -/

theorem charListLe_total : ∀ (a b : List Char), charListLe a b = true ∨ charListLe b a = true := by
  intro a
  induction a with
  | nil => intro b; left; rfl
  | cons x xs ih =>
    intro b
    cases b with
    | nil => right; rfl
    | cons y ys =>
      rcases Nat.lt_trichotomy x.toNat y.toNat with h | h | h
      · left; simp [charListLe, h]
      · rcases ih ys with h2 | h2
        · left; simp [charListLe, h, h2]
        · right; simp [charListLe, h, h2]
      · right; simp [charListLe, h]

theorem charListLe_trans : ∀ (a b c : List Char),
    charListLe a b = true → charListLe b c = true → charListLe a c = true := by
  intro a
  induction a with
  | nil => intro b c _ _; rfl
  | cons x xs ih =>
    intro b c hab hbc
    cases b with
    | nil => simp [charListLe] at hab
    | cons y ys =>
      cases c with
      | nil => simp [charListLe] at hbc
      | cons z zs =>
        rcases Nat.lt_trichotomy x.toNat y.toNat with h1 | h1 | h1
        · rcases Nat.lt_trichotomy y.toNat z.toNat with h2 | h2 | h2
          · simp [charListLe, show x.toNat < z.toNat by omega]
          · simp [charListLe, show x.toNat < z.toNat by omega]
          · have hyz : ¬ y.toNat < z.toNat := by omega
            simp [charListLe, hyz, h2] at hbc
        · rcases Nat.lt_trichotomy y.toNat z.toNat with h2 | h2 | h2
          · simp [charListLe, show x.toNat < z.toNat by omega]
          · have hab2 : charListLe xs ys = true := by
              simp [charListLe, h1] at hab; exact hab
            have hbc2 : charListLe ys zs = true := by
              simp [charListLe, h2] at hbc; exact hbc
            have hxz : ¬ x.toNat < z.toNat := by omega
            have hzx : ¬ z.toNat < x.toNat := by omega
            simp [charListLe, hxz, hzx]
            exact ih ys zs hab2 hbc2
          · have hyz : ¬ y.toNat < z.toNat := by omega
            simp [charListLe, hyz, h2] at hbc
        · have hxy : ¬ x.toNat < y.toNat := by omega
          simp [charListLe, hxy, h1] at hab

instance strLeTotal : IsTotal String (fun a b => strLe a b = true) :=
  ⟨fun a b => charListLe_total a.data b.data⟩

instance strLeTrans : IsTrans String (fun a b => strLe a b = true) :=
  ⟨fun a b c => charListLe_trans a.data b.data c.data⟩

theorem cmdArgs_append (a b : List (String × PyVal)) :
    cmdArgs (a ++ b) = cmdArgs a ++ cmdArgs b := by
  induction a with
  | nil => rfl
  | cons kv rest ih =>
    obtain ⟨k, v⟩ := kv
    cases v with
    | pbool bb => cases bb <;> simp [cmdArgs, ih]
    | pstr s => cases hs : (s != "") <;> simp [cmdArgs, hs, ih]

theorem promptStep_host (d : PyVal) (i : String) :
    promptStep "--host" d i =
      some (PyVal.pbool (eqStr (mergeVal i d) "y" || (isBool d && eqStr (mergeVal i d) ""))) :=
  rfl

theorem promptStep_mac (d : PyVal) (i : String) :
    promptStep "--mac" d i =
      some (PyVal.pbool (eqStr (mergeVal i d) "y" || (isBool d && eqStr (mergeVal i d) ""))) :=
  rfl

theorem promptStep_augment (d : PyVal) (i : String) :
    promptStep "--augment" d i =
      some (PyVal.pbool (eqStr (mergeVal i d) "y" || (isBool d && eqStr (mergeVal i d) ""))) :=
  rfl

theorem promptStep_proxy (d : PyVal) (i : String) :
    promptStep "--proxy" d i =
      (if truthy (mergeVal i d) then some (mergeVal i d) else none) :=
  rfl

theorem promptStep_sandbox (d : PyVal) (i : String) :
    promptStep "--sandbox" d i =
      (if eqStr (mergeVal i d) "none" then none else some (mergeVal i d)) :=
  rfl

/-- Closed form of the prompt loop: the `opts` dictionary always holds
the three booleans, holds `--proxy` iff the merged value is truthy, and
holds `--sandbox` iff the merged value differs from `"none"`. -/
theorem promptOpts_eq (L : List (String × PyVal)) (inputs : String → String) :
    promptOpts L inputs =
      ("--host", PyVal.pbool (boolChoice (inputs "--host") (optDefault L "--host" (PyVal.pbool false)))) ::
      ("--mac", PyVal.pbool (boolChoice (inputs "--mac") (optDefault L "--mac" (PyVal.pbool false)))) ::
      ((if truthy (mergeVal (inputs "--proxy") (optDefault L "--proxy" (PyVal.pstr ""))) then
          [("--proxy", mergeVal (inputs "--proxy") (optDefault L "--proxy" (PyVal.pstr "")))]
        else []) ++
       ((if eqStr (mergeVal (inputs "--sandbox") (optDefault L "--sandbox" (PyVal.pstr "none"))) "none" then []
         else [("--sandbox", mergeVal (inputs "--sandbox") (optDefault L "--sandbox" (PyVal.pstr "none")))]) ++
        [("--augment", PyVal.pbool (boolChoice (inputs "--augment") (optDefault L "--augment" (PyVal.pbool false))))])) := by
  unfold promptOpts optionSpecs
  cases hp : truthy (mergeVal (inputs "--proxy") ((L.lookup "--proxy").getD (PyVal.pstr ""))) <;>
  cases hsb : eqStr (mergeVal (inputs "--sandbox") ((L.lookup "--sandbox").getD (PyVal.pstr "none"))) "none" <;>
    simp [List.filterMap_cons, promptStep_host, promptStep_mac, promptStep_augment,
      promptStep_proxy, promptStep_sandbox, hp, hsb, optDefault, boolChoice]

/-- Bridge between the abstract option values and the prompt-loop
embedding: when nothing is persisted and the user types the inputs that
select the values of `o`, the loop produces exactly `optsDict o`. -/
theorem promptOpts_inputsFor (o : LaunchOptions) :
    promptOpts [] (inputsFor o) = optsDict o := by
  obtain ⟨h, m, p, s, a⟩ := o
  cases h <;> cases m <;> cases a <;> cases s <;> by_cases hp : p = "" <;>
    simp [promptOpts_eq, inputsFor, optsDict, optDefault, boolChoice, mergeVal,
      truthy, eqStr, isBool, SandboxMode.toStr, hp]

/-! ## Claim theorems -/

/-- C1: with a persisted `{"--host": true}` and empty input at every
prompt, the prompt loop stores `--host = false`, not the persisted
`true`: the merged value `True` fails the `val == "y"` comparison.  This
contradicts the claimed merge rule (and the prompt's own text, which
promises that empty input reuses the last value). -/
theorem prompt_empty_input_discards_persisted_true :
    promptOpts [("--host", PyVal.pbool true)] (fun _ => "") =
      [("--host", PyVal.pbool false), ("--mac", PyVal.pbool false),
        ("--augment", PyVal.pbool false)] ∧
    (promptOpts [("--host", PyVal.pbool true)] (fun _ => "")).lookup "--host" ≠
      some (PyVal.pbool true) := by decide

/-- C2, counterexample: on an existing but unparsable options file,
`loadLastOptions` raises `json.JSONDecodeError` instead of returning the
empty mapping — there is no handler around `json.loads`. -/
theorem load_last_options_unparsable_raises :
    loadLastOptions (FileState.present none) = Except.error LoadErr.jsonDecodeError ∧
    loadLastOptions (FileState.present none) ≠ Except.ok [] :=
  ⟨rfl, fun h => Except.noConfusion h⟩

/-- C2, amended: `loadLastOptions` returns the empty mapping when the
file is absent and the parsed mapping when it parses, but propagates a
JSON decode error when the file exists and is unparsable. -/
theorem load_last_options_behaviour :
    loadLastOptions FileState.absent = Except.ok [] ∧
    (∀ m, loadLastOptions (FileState.present (some m)) = Except.ok m) ∧
    loadLastOptions (FileState.present none) = Except.error LoadErr.jsonDecodeError :=
  ⟨rfl, fun _ => rfl, rfl⟩

/-- C3, counterexample: with nothing persisted and empty input at every
prompt, the dictionary written to `last_options.json` (line 181) contains
the three boolean options with their default value `false` — so
default-valued options are not absent from the persisted file. -/
theorem persisted_options_contain_default_booleans :
    promptOpts [] (fun _ => "") =
      [("--host", PyVal.pbool false), ("--mac", PyVal.pbool false),
        ("--augment", PyVal.pbool false)] ∧
    ("--host", PyVal.pbool false) ∈ promptOpts [] (fun _ => "") := by decide

/-- C3, amended: the launch command receives an option only when its
value is non-default (true boolean, non-empty string), and the persisted
dictionary omits `--proxy` when the merged value is falsy and
`--sandbox` when it is `"none"`, but always contains the three boolean
options, including when their value is the default `false`. -/
theorem nondefault_options_amended :
    (∀ (L : List (String × PyVal)) (inputs : String → String) (v : PyVal),
      ("--proxy", v) ∈ promptOpts L inputs → truthy v = true) ∧
    (∀ (L : List (String × PyVal)) (inputs : String → String) (v : PyVal),
      ("--sandbox", v) ∈ promptOpts L inputs → eqStr v "none" = false) ∧
    (∀ (L : List (String × PyVal)) (inputs : String → String),
      (∃ b, ("--host", PyVal.pbool b) ∈ promptOpts L inputs) ∧
      (∃ b, ("--mac", PyVal.pbool b) ∈ promptOpts L inputs) ∧
      (∃ b, ("--augment", PyVal.pbool b) ∈ promptOpts L inputs)) ∧
    (∀ opts : List (String × PyVal),
      cmdArgs opts = (opts.filter (fun kv => truthy kv.2)).flatMap
        (fun kv => match kv.2 with
          | PyVal.pbool _ => [kv.1]
          | PyVal.pstr s => [kv.1, s])) := by
  refine ⟨?_, ?_, ?_, ?_⟩
  · intro L inputs v h
    rw [promptOpts_eq] at h
    cases hp : truthy (mergeVal (inputs "--proxy") (optDefault L "--proxy" (PyVal.pstr ""))) <;>
    cases hsb : eqStr (mergeVal (inputs "--sandbox") (optDefault L "--sandbox" (PyVal.pstr "none"))) "none" <;>
      simp [hp, hsb] at h <;> simp [h, hp]
  · intro L inputs v h
    rw [promptOpts_eq] at h
    cases hp : truthy (mergeVal (inputs "--proxy") (optDefault L "--proxy" (PyVal.pstr ""))) <;>
    cases hsb : eqStr (mergeVal (inputs "--sandbox") (optDefault L "--sandbox" (PyVal.pstr "none"))) "none" <;>
      simp [hp, hsb] at h <;> simp [h, hsb]
  · intro L inputs
    refine ⟨⟨boolChoice (inputs "--host") (optDefault L "--host" (PyVal.pbool false)), ?_⟩,
      ⟨boolChoice (inputs "--mac") (optDefault L "--mac" (PyVal.pbool false)), ?_⟩,
      ⟨boolChoice (inputs "--augment") (optDefault L "--augment" (PyVal.pbool false)), ?_⟩⟩ <;>
      simp [promptOpts_eq]
  · intro opts
    induction opts with
    | nil => rfl
    | cons kv rest ih =>
      obtain ⟨k, v⟩ := kv
      cases v with
      | pbool bb => cases bb <;> simp [cmdArgs, truthy, ih]
      | pstr s => cases hs : (s != "") <;> simp [cmdArgs, truthy, hs, ih]

/-- Witness for the amended C3 theorem: a concrete non-empty proxy value
entered at the prompt lands in the dictionary and is truthy. -/
theorem nondefault_options_amended_witness :
    truthy (PyVal.pstr "10.0.0.1:8080") = true :=
  nondefault_options_amended.1 []
    (fun k => if k == "--proxy" then "10.0.0.1:8080" else "")
    (PyVal.pstr "10.0.0.1:8080") (by decide)

/-- C4: a flat archive (entries without a single common top-level
segment) makes `create_vscode` execute `target.rename(target / "vscode")`,
moving the destination into its own subtree, which the operating system
rejects — so a flat import never succeeds and never produces the marker
directory. -/
theorem import_flat_archive_fails :
    importArchive ["a.txt", "b.txt"] = Except.error ImportErr.renameIntoSelf ∧
    ∀ paths, importArchive ["a.txt", "b.txt"] ≠ Except.ok paths :=
  ⟨rfl, fun _ h => Except.noConfusion h⟩

/-- C5: for every environment name and abstract option values, the
launch command is the fixed prefix `["vsenv", "start", env]` followed by
one flag per true boolean, `--proxy <value>` exactly when the proxy is
non-empty, and `--sandbox <mode>` exactly when the mode is not `none`;
in particular the claim's worked example. -/
theorem build_launch_command_spec :
    (∀ (env : String) (o : LaunchOptions),
      buildLaunchCommand env o =
        ["vsenv", "start", env]
          ++ (if o.randomizeHost then ["--host"] else [])
          ++ (if o.randomizeMac then ["--mac"] else [])
          ++ (if o.proxy = "" then [] else ["--proxy", o.proxy])
          ++ (if o.sandboxMode = SandboxMode.none then []
              else ["--sandbox", o.sandboxMode.toStr])
          ++ (if o.augmentSupport then ["--augment"] else [])) ∧
    buildLaunchCommand "dev" (LaunchOptions.mk true false "" SandboxMode.none false) =
      ["vsenv", "start", "dev", "--host"] := by
  constructor
  · intro env o
    obtain ⟨h, m, p, s, a⟩ := o
    cases h <;> cases m <;> cases a <;> cases s <;> by_cases hp : p = "" <;>
      simp [buildLaunchCommand, buildCmd, optsDict, cmdArgs_append, cmdArgs, hp,
        SandboxMode.toStr]
  · decide

/-- C6: an archive with zero entries fails at `members[0]` (line 119),
inside the extraction `try` block — the empty-archive failure class of
the spec taxonomy (`ArchiveError`); it never succeeds and never produces
any other failure. -/
theorem import_empty_archive_fails :
    importArchive [] = Except.error ImportErr.emptyArchive :=
  rfl

/-- C7: in every launch, the options are written to `last_options.json`
(line 181) strictly before the helper is invoked (line 191), and the
persisted content afterwards equals the chosen options whatever the
helper invocation's outcome. -/
theorem launch_persists_options_before_helper (p0 : Option (List (String × PyVal)))
    (env : String) (opts : List (String × PyVal)) (outcome : HelperOutcome) :
    (∃ rest, openVscodeEvents env opts outcome =
      Event.writeOptions opts :: Event.runHelper (buildCmd env opts) :: rest) ∧
    persistedAfter (openVscodeEvents env opts outcome) p0 = some opts := by
  cases outcome <;> exact ⟨⟨_, rfl⟩, rfl⟩

/-- C8, counterexample: calling `create_vscode` with a name that already
denotes an environment but a source archive path that does not exist
fails with the missing-file error (line 100) before the conflict check
(line 110) is ever reached — not with `ConflictError`. -/
theorem create_existing_name_missing_archive :
    (createEnvironment false ["proj/a.txt"] [("dev", ["vscode/a.txt"])] "dev").1 =
      some CreateErr.notFound ∧
    (createEnvironment false ["proj/a.txt"] [("dev", ["vscode/a.txt"])] "dev").1 ≠
      some CreateErr.conflict := by decide

/-- C8, amended: when the source archive path exists and the name is
valid, creating an environment under an already-used name fails with the
conflict error and leaves the registry (hence the existing environment's
contents) unmodified. -/
theorem create_conflict_amended (members : List String)
    (existing : List (String × List String)) (name : String)
    (hname : (name == "" || name.data.any (fun c => c.isWhitespace)) = false)
    (hconf : (existing.lookup name).isSome = true) :
    createEnvironment true members existing name = (some CreateErr.conflict, existing) := by
  simp [createEnvironment, hname, hconf]

/-- Witness for the amended C8 theorem at a concrete registry. -/
theorem create_conflict_amended_witness :
    createEnvironment true ["proj/a.txt"] [("dev", ["vscode/a.txt"])] "dev" =
      (some CreateErr.conflict, [("dev", ["vscode/a.txt"])]) :=
  create_conflict_amended ["proj/a.txt"] [("dev", ["vscode/a.txt"])] "dev"
    (by decide) (by decide)

/-- C9, counterexample: a directory named `vscode` sitting directly under
the registry root is reported by `list_envs` as an environment called
`"vscode"`, while the claim's reading — first segments of the directories
containing the marker — yields nothing for it (its container is the root
itself). -/
theorem list_envs_toplevel_marker_counterexample :
    list_envs true [FsEntry.mk ["vscode"] true] = ["vscode"] ∧
    claimEnvNames true [FsEntry.mk ["vscode"] true] = [] ∧
    list_envs true [FsEntry.mk ["vscode"] true] ≠
      claimEnvNames true [FsEntry.mk ["vscode"] true] := by decide

/-- C9, amended: `list_envs` returns the empty sequence when the root
does not exist, and otherwise a duplicate-free, lexicographically sorted
list containing exactly the first path segments of the directories named
with the install marker found at any depth — so a marker directory
directly under the root is listed under its own name. -/
theorem list_envs_characterisation (entries : List FsEntry) :
    list_envs false entries = [] ∧
    (list_envs true entries).Sorted (fun a b => strLe a b = true) ∧
    (list_envs true entries).Nodup ∧
    (∀ s : String, s ∈ list_envs true entries ↔
      ∃ e, e ∈ entries ∧ e.isDir = true ∧ e.path.getLast? = some "vscode" ∧
        e.path.head? = some s) := by
  refine ⟨rfl, ?_, ?_, ?_⟩
  · exact List.sorted_insertionSort _ _
  · exact ((List.perm_insertionSort _ _).nodup_iff).mpr (List.nodup_dedup _)
  · intro s
    simp [list_envs, List.mem_insertionSort, List.mem_dedup, List.mem_filterMap,
      List.mem_filter, Bool.and_eq_true, beq_iff_eq, and_assoc]

/-- C10: the reset menu action passes the misspelled subcommand token
`"rest"` to the helper (line 253), not the `"reset"` of the helper's
fixed contract. -/
theorem reset_uses_misspelled_subcommand :
    resetAction = ["vsenv", "rest"] ∧ resetAction ≠ ["vsenv", "reset"] := by decide

end LiteVSenv
